import Mathlib

/-!
Shallow embedding of src/tempcontrol.c (temperature classification and
actuation state machine, its two sweep modes and the continuous control
loop), with theorems checking the natural-language specification against
the code.

Temperatures are modelled as rationals (the C `double` values are compared
against the integer thresholds 40, 45, 47, 49, 51, 53; those comparisons
are exact for the values involved). I2C traffic is modelled as a list of
events; the hardware channel descriptor `gFileI2C` is threaded explicitly,
and channel availability (whether `wiringPiI2CSetup` succeeds) is a
boolean parameter.
-/

set_option maxRecDepth 10000

namespace TempControl

/-- The `enum TempRange` of tempcontrol.c, lines 57-66 (values 0..6). -/
inductive TempRange
  | TempBelow40
  | Temp40To45
  | Temp45To47
  | Temp47To49
  | Temp49To51
  | Temp51To53
  | TempAbove53
deriving DecidableEq, Repr

/-- Numeric value of each enumerator, exactly the C enum values 0..6. -/
def rangeIndex : TempRange → ℕ
  | .TempBelow40 => 0
  | .Temp40To45 => 1
  | .Temp45To47 => 2
  | .Temp47To49 => 3
  | .Temp49To51 => 4
  | .Temp51To53 => 5
  | .TempAbove53 => 6

/-- The C cast `(enum TempRange)i` as used by `sweepTempRanges`, which only
applies it to the values 0..6 (the enumerators themselves). -/
def rangeOfIndex : ℕ → TempRange
  | 0 => .TempBelow40
  | 1 => .Temp40To45
  | 2 => .Temp45To47
  | 3 => .Temp47To49
  | 4 => .Temp49To51
  | 5 => .Temp51To53
  | _ => .TempAbove53

/-- `temperatureRange` (tempcontrol.c lines 175-209): the cascade of
strict `<` comparisons against 40, 45, 47, 49, 51, 53, with `TempAbove53`
as the final `else`. -/
def temperatureRange (temperature : ℚ) : TempRange :=
  if temperature < 40 then .TempBelow40
  else if temperature < 45 then .Temp40To45
  else if temperature < 47 then .Temp45To47
  else if temperature < 49 then .Temp47To49
  else if temperature < 51 then .Temp49To51
  else if temperature < 53 then .Temp51To53
  else .TempAbove53

/-- MAX_LED of tempcontrol.c line 54. -/
def MAX_LED : ℤ := 3

/-- MAX_RANGE of tempcontrol.c line 55. -/
def MAX_RANGE : ℕ := 7

/-- One observable action on the I2C channel: opening it (with the
descriptor `wiringPiI2CSetup` returned), a single-byte register write
`wiringPiI2CWriteReg8(fd, reg, val)`, or `close(fd)`. -/
inductive HwEvent
  | openChan (fd : ℤ)
  | writeReg (fd : ℤ) (reg : ℤ) (val : ℤ)
  | closeChan (fd : ℤ)
deriving DecidableEq, Repr

/-- Result of `wiringPiI2CSetup(0x0d)`: a non-negative descriptor when the
channel is available (3 is a representative value), -1 otherwise. -/
def wiringPiI2CSetup (avail : Bool) : ℤ :=
  if avail then 3 else -1

/-- `setRGB` (tempcontrol.c lines 415-431): writes the LED-select register
0x00 (0xff when all `MAX_LED` LEDs are addressed, otherwise the LED index),
then the three color registers 0x01, 0x02, 0x03 with R, G, B. -/
def setRGB (fd : ℤ) (num : ℤ) (R : ℤ) (G : ℤ) (B : ℤ) : List HwEvent :=
  if num ≥ MAX_LED then
    [.writeReg fd 0x00 0xff, .writeReg fd 0x01 R, .writeReg fd 0x02 G, .writeReg fd 0x03 B]
  else if num ≥ 0 then
    [.writeReg fd 0x00 num, .writeReg fd 0x01 R, .writeReg fd 0x02 G, .writeReg fd 0x03 B]
  else []

/-- The fan-duty byte written to register 0x08 for each range
(tempcontrol.c lines 240-286). -/
def fanDuty : TempRange → ℤ
  | .TempBelow40 => 0x00
  | .Temp40To45 => 0x02
  | .Temp45To47 => 0x04
  | .Temp47To49 => 0x06
  | .Temp49To51 => 0x08
  | .Temp51To53 => 0x09
  | .TempAbove53 => 0x01

/-- The (R, G, B) triple passed to `setRGB` for each range
(tempcontrol.c lines 240-286). -/
def rgbOf : TempRange → ℤ × ℤ × ℤ
  | .TempBelow40 => (0x00, 0x88, 0x00)
  | .Temp40To45 => (0x00, 0x44, 0x44)
  | .Temp45To47 => (0x00, 0x00, 0x88)
  | .Temp47To49 => (0x44, 0x00, 0x44)
  | .Temp49To51 => (0x88, 0x00, 0x00)
  | .Temp51To53 => (0xff, 0x00, 0x00)
  | .TempAbove53 => (0xff, 0xff, 0xff)

/-- The global `gFileI2C` (tempcontrol.c line 69). -/
structure HwState where
  gFileI2C : ℤ
deriving DecidableEq, Repr

/-- What one call to `setTempControls` produces: its return value, the I2C
events it issued, and the global state it leaves behind. -/
structure CtrlResult where
  returnValue : ℤ
  events : List HwEvent
  state : HwState
deriving DecidableEq, Repr

/-- `setTempControls` (tempcontrol.c lines 232-293): if `gFileI2C == 0` it
first calls `wiringPiI2CSetup(0x0d)` (whose result, negative on failure, is
stored unchecked); the switch writes the fan-duty byte to register 0x08 and
calls `setRGB(gFileI2C, MAX_LED, R, G, B)`; finally `close(gFileI2C)` runs
and `gFileI2C` is reset to 0. The `default:` case (the only one that sets
`returnValue = -1`) is unreachable for the seven enumerators, so the
return value is 0 even when `wiringPiI2CSetup` failed. -/
def setTempControls (avail : Bool) (s : HwState) (tempRange : TempRange) : CtrlResult :=
  let fd := if s.gFileI2C = 0 then wiringPiI2CSetup avail else s.gFileI2C
  let openEvents := if s.gFileI2C = 0 then [HwEvent.openChan fd] else []
  let writes := HwEvent.writeReg fd 0x08 (fanDuty tempRange) ::
    setRGB fd MAX_LED (rgbOf tempRange).1 (rgbOf tempRange).2.1 (rgbOf tempRange).2.2
  { returnValue := 0
    events := openEvents ++ writes ++ [HwEvent.closeChan fd]
    state := { gFileI2C := 0 } }

/-- `updateTemperature` (tempcontrol.c lines 302-313): `returnValue` is
initialized to 0 and never assigned again, so the function returns 0 even
when the `fread` fails. `readMilli = some n` models a successful read of
the milli-Celsius integer n (then `gTemperature = n / 1000.0`);
`none` models a failed read, after which `atoi` runs on the stale buffer —
modelled as leaving the retained value unchanged. -/
def updateTemperature (readMilli : Option ℤ) (gTemperature : ℚ) : ℤ × ℚ :=
  match readMilli with
  | some n => (0, (n : ℚ) / 1000)
  | none => (0, gTemperature)

/-- The state `runControlLoop` carries across iterations: `oldRange`
(the last applied range) and the global `gFileI2C`. -/
structure LoopState where
  oldRange : TempRange
  hw : HwState
deriving DecidableEq, Repr

/-- Everything one iteration of `runControlLoop` (tempcontrol.c lines
384-403) does: the state and retained temperature it leaves, the value of
`returnValue` after the iteration's actuation step, which range it applied
(if any), how many `showProperties` render calls it made, and whether the
`if (!returnValue)` guard skipped classification. -/
structure CycleOut where
  state : LoopState
  gTemperature : ℚ
  returnValue : ℤ
  applied : Option TempRange
  renders : ℕ
  skippedClassification : Bool
deriving DecidableEq, Repr

/-- One iteration of the `while (true)` body of `runControlLoop`:
`returnValue = updateTemperature()`, `showProperties()`, then — only if
`returnValue` is 0 — classify, and if the range differs from `oldRange`,
`returnValue = setTempControls(tempRange, false)` and `oldRange = tempRange`. -/
def runCycle (avail : Bool) (readMilli : Option ℤ) (st : LoopState) (gTemp : ℚ) :
    CycleOut :=
  let rt := updateTemperature readMilli gTemp
  if rt.1 = 0 then
    let r := temperatureRange rt.2
    if r ≠ st.oldRange then
      let res := setTempControls avail st.hw r
      { state := { oldRange := r, hw := res.state }, gTemperature := rt.2,
        returnValue := res.returnValue, applied := some r, renders := 1,
        skippedClassification := false }
    else
      { state := st, gTemperature := rt.2, returnValue := rt.1, applied := none,
        renders := 1, skippedClassification := false }
  else
    { state := st, gTemperature := rt.2, returnValue := rt.1, applied := none,
      renders := 1, skippedClassification := true }

/-- `runControlLoop` unrolled over a finite list of injected reads: final
state, final retained temperature, the ranges applied in order, and the
total number of render calls. -/
def runLoop (avail : Bool) (st : LoopState) (gTemp : ℚ) :
    List (Option ℤ) → LoopState × ℚ × List TempRange × ℕ
  | [] => (st, gTemp, [], 0)
  | r :: rs =>
    let c := runCycle avail r st gTemp
    let rest := runLoop avail c.state c.gTemperature rs
    (rest.1, rest.2.1, c.applied.toList ++ rest.2.2.1, c.renders + rest.2.2.2)

/-- The synthetic temperatures of `sweepTemperatures` (tempcontrol.c line
325): `for (i = 30; i < 65; i++)`, i.e. 30..64 in ascending order. -/
def sweepTempsList : List ℤ := (List.range 35).map (fun k => 30 + (k : ℤ))

/-- The loop of `sweepTemperatures` (tempcontrol.c lines 320-344):
`oldRange` starts at `TempAbove53`; each iteration classifies the synthetic
temperature and calls `setTempControls` only when the range differs from
`oldRange`. Returns the final `oldRange` and the list of
(synthetic temperature, range) pairs at which `setTempControls` ran. -/
def sweepTemperaturesRun : TempRange × List (ℤ × TempRange) :=
  sweepTempsList.foldl
    (fun acc (i : ℤ) =>
      let r := temperatureRange (i : ℚ)
      if r ≠ acc.1 then (r, acc.2 ++ [(i, r)]) else acc)
    (.TempAbove53, [])

/-- The applications `sweepTemperatures` performs, in order. -/
def sweepTemperaturesApplications : List (ℤ × TempRange) :=
  sweepTemperaturesRun.2

/-- The ranges `sweepTempRanges` (tempcontrol.c lines 352-371) applies, in
order: `(enum TempRange)i` for i = MAX_RANGE-1 down to 0, then for
i = 0 up to MAX_RANGE-1, calling `setTempControls` unconditionally each
step. -/
def sweepTempRangesApplications : List TempRange :=
  ((List.range MAX_RANGE).reverse.map rangeOfIndex) ++
    ((List.range MAX_RANGE).map rangeOfIndex)

/-- The three run modes dispatched by `main`. -/
inductive RunMode
  | continuousMode
  | sweepTemperaturesMode
  | sweepTempRangesMode
deriving DecidableEq, Repr

/-- How `main` ends: entering a run mode, printing usage and returning -1,
or printing "unknown option" and returning -1. -/
inductive MainOutcome
  | runMode (m : RunMode)
  | usageError
  | unknownOption
deriving DecidableEq, Repr

/-- What a run of `main` does before any loop body executes. -/
structure MainRun where
  initFailureReported : Bool
  outcome : MainOutcome
deriving DecidableEq, Repr

/-- `main` (tempcontrol.c lines 96-135) with `args = argv[1..]` (so
`argc = args.length + 1`) and `initOk` the success of `init()`:
if `init()` fails, "Init failed" is printed and control FALLS THROUGH to
the argument checks; `runControlLoop` runs only when `init()` succeeded and
`argc == 1`; then `argc != 3 || strcmp(argv[1], "-t")` is the usage error,
and otherwise `argv[2]` selects one of the two sweep modes. -/
def mainProgram (initOk : Bool) (args : List String) : MainRun :=
  { initFailureReported := !initOk
    outcome :=
      if initOk ∧ args = [] then .runMode .continuousMode
      else if args.length + 1 ≠ 3 ∨ args.head? ≠ some ("-t") then .usageError
      else if args.get? 1 = some ("sweepTemperatures") then .runMode .sweepTemperaturesMode
      else if args.get? 1 = some ("sweepTempRanges") then .runMode .sweepTempRangesMode
      else .unknownOption }

/-- The register/value pairs of the `writeReg` events of a trace, in order
(projecting away the descriptor). -/
def writeRegVals : List HwEvent → List (ℤ × ℤ)
  | [] => []
  | .writeReg _ r v :: es => (r, v) :: writeRegVals es
  | .openChan _ :: es => writeRegVals es
  | .closeChan _ :: es => writeRegVals es

/-- All seven ranges, in enum order. -/
def allRanges : List TempRange :=
  [.TempBelow40, .Temp40To45, .Temp45To47, .Temp47To49, .Temp49To51,
   .Temp51To53, .TempAbove53]

end TempControl

namespace TempControl

/-- The reads injected in the continuous-mode scenario: 38, 42, 42, 61
degrees Celsius, as milli-Celsius contents of the temperature file. -/
def injectedReads : List (Option ℤ) :=
  [some 38000, some 42000, some 42000, some 61000]

/-- C1: `temperatureRange` is total, the seven ranges partition the line
with the section-3 boundaries, each boundary value belongs to the upper
range, and in particular `temperatureRange 45 = Temp45To47`, not
`Temp40To45`. -/
theorem temperatureRange_partitions :
    (∀ t : ℚ,
      (temperatureRange t = .TempBelow40 ↔ t < 40) ∧
      (temperatureRange t = .Temp40To45 ↔ 40 ≤ t ∧ t < 45) ∧
      (temperatureRange t = .Temp45To47 ↔ 45 ≤ t ∧ t < 47) ∧
      (temperatureRange t = .Temp47To49 ↔ 47 ≤ t ∧ t < 49) ∧
      (temperatureRange t = .Temp49To51 ↔ 49 ≤ t ∧ t < 51) ∧
      (temperatureRange t = .Temp51To53 ↔ 51 ≤ t ∧ t < 53) ∧
      (temperatureRange t = .TempAbove53 ↔ 53 ≤ t)) ∧
    temperatureRange 45 = .Temp45To47 ∧ temperatureRange 45 ≠ .Temp40To45 := by
  refine ⟨fun t => ?_, by decide, by decide⟩
  unfold temperatureRange
  split_ifs with h1 h2 h3 h4 h5 h6 <;>
    refine ⟨?_, ?_, ?_, ?_, ?_, ?_, ?_⟩ <;>
    constructor <;>
    intro h <;>
    first
      | rfl
      | linarith
      | (exact absurd h (by decide))
      | (obtain ⟨a, b⟩ := h; exfalso; linarith)
      | (exact ⟨by linarith, by linarith⟩)
      | (exfalso; linarith)

/-- C2: for every range, `setTempControls` issues exactly one fan-duty
write (register 0x08) carrying the fixed byte of the hardware table,
followed by exactly the four color writes (all-LEDs select marker 0xff on
register 0x00, then R, G, B on registers 0x01..0x03) carrying the RGB
triple of the section-4.2 table, and the seven RGB triples are pairwise
distinct. -/
theorem setTempControls_write_table :
    (∀ (avail : Bool) (g : ℤ) (b : TempRange),
      writeRegVals (setTempControls avail ⟨g⟩ b).events =
        [(0x08, fanDuty b), (0x00, 0xff), (0x01, (rgbOf b).1),
         (0x02, (rgbOf b).2.1), (0x03, (rgbOf b).2.2)]) ∧
    (fanDuty .TempBelow40 = 0x00 ∧ fanDuty .Temp40To45 = 0x02 ∧
     fanDuty .Temp45To47 = 0x04 ∧ fanDuty .Temp47To49 = 0x06 ∧
     fanDuty .Temp49To51 = 0x08 ∧ fanDuty .Temp51To53 = 0x09 ∧
     fanDuty .TempAbove53 = 0x01) ∧
    allRanges.map rgbOf =
      [(0, 136, 0), (0, 68, 68), (0, 0, 136), (68, 0, 68), (136, 0, 0),
       (255, 0, 0), (255, 255, 255)] ∧
    allRanges.Pairwise (fun b1 b2 => rgbOf b1 ≠ rgbOf b2) := by
  refine ⟨fun avail g b => ?_, by decide, by decide, by decide⟩
  by_cases hg : g = 0 <;> cases avail <;> cases b <;>
    simp [setTempControls, setRGB, wiringPiI2CSetup, writeRegVals, MAX_LED,
      rgbOf, fanDuty, hg]

/-- C3 counterexample: the temperature sweep performs 7 applications, not
6 — the first one already at synthetic temperature 30, because `oldRange`
starts at `TempAbove53`. -/
theorem sweepTemperatures_seven_not_six :
    sweepTemperaturesApplications.length = 7 ∧
    sweepTemperaturesApplications.length ≠ 6 ∧
    sweepTemperaturesApplications.head? = some (30, .TempBelow40) := by
  decide

/-- C3 amended: `sweepTemperatures` iterates 30..64 in ascending order and
applies exactly when the classified range differs from the previously
applied one: at 30 (against the initial `oldRange = TempAbove53`) and at
the transitions 40, 45, 47, 49, 51, 53 — exactly 7 applications. -/
theorem sweepTemperatures_applications_exact :
    sweepTempsList =
      [30, 31, 32, 33, 34, 35, 36, 37, 38, 39, 40, 41, 42, 43, 44, 45, 46,
       47, 48, 49, 50, 51, 52, 53, 54, 55, 56, 57, 58, 59, 60, 61, 62, 63,
       64] ∧
    sweepTemperaturesApplications =
      [(30, .TempBelow40), (40, .Temp40To45), (45, .Temp45To47),
       (47, .Temp47To49), (49, .Temp49To51), (51, .Temp51To53),
       (53, .TempAbove53)] ∧
    sweepTemperaturesApplications.length = 7 := by
  decide

/-- C4, evaluated at the failing input. With the channel unavailable
(`wiringPiI2CSetup` returns -1) and a reading of 38 degrees on a cycle
where the classified range `TempBelow40` differs from
`oldRange = TempAbove53`: the open fails (the trace starts with
`openChan (-1)`), yet `setTempControls` returns 0 — no failure is ever
signalled, although its own doc comment promises a non-zero return when
the I2C interface could not be initialized — and the loop updates
`oldRange` to `TempBelow40`, so the actuation is never re-attempted. -/
theorem actuator_unavailable_not_retried :
    (setTempControls false ⟨0⟩ .TempBelow40).returnValue = 0 ∧
    (setTempControls false ⟨0⟩ .TempBelow40).events.head? =
      some (.openChan (-1)) ∧
    (runCycle false (some 38000) ⟨.TempAbove53, ⟨0⟩⟩ 0).returnValue = 0 ∧
    (runCycle false (some 38000) ⟨.TempAbove53, ⟨0⟩⟩ 0).state.oldRange =
      .TempBelow40 := by
  norm_num [runCycle, updateTemperature, temperatureRange, setTempControls,
    setRGB, wiringPiI2CSetup, MAX_LED]
  decide

/-- C5 counterexample: when `init()` fails but a valid sweep argument
vector is supplied, `main` still enters the corresponding sweep mode. -/
theorem initFailure_sweep_still_entered :
    (mainProgram false ["-t", "sweepTemperatures"]).outcome =
      .runMode .sweepTemperaturesMode ∧
    (mainProgram false ["-t", "sweepTempRanges"]).outcome =
      .runMode .sweepTempRangesMode := by
  decide

/-- C5 amended: when `init()` fails the failure is reported and the
continuous mode is never entered; the process exits with an error for
every argument vector except the two valid sweep vectors, which still
enter their sweep mode despite the failed initialization. -/
theorem initFailure_mode_dispatch :
    ∀ args : List String,
      (mainProgram false args).initFailureReported = true ∧
      (mainProgram false args).outcome ≠ .runMode .continuousMode ∧
      ((mainProgram false args).outcome = .runMode .sweepTemperaturesMode ↔
        args = ["-t", "sweepTemperatures"]) ∧
      ((mainProgram false args).outcome = .runMode .sweepTempRangesMode ↔
        args = ["-t", "sweepTempRanges"]) := by
  intro args
  match args with
  | [] => simp [mainProgram]
  | [a] => simp [mainProgram]
  | a :: b :: c :: rest => simp [mainProgram]
  | [a, b] =>
    by_cases ha : a = "-t"
    · by_cases hb : b = "sweepTemperatures"
      · simp [mainProgram, ha, hb]
      · by_cases hb2 : b = "sweepTempRanges"
        · simp [mainProgram, ha, hb, hb2]
        · simp [mainProgram, ha, hb, hb2]
    · simp [mainProgram, ha]

/-- C6: in continuous mode with injected readings 38, 42, 42, 61 starting
from the initial `oldRange = TempAbove53`, the applied ranges are
`TempBelow40`, `Temp40To45`, then nothing for the repeated 42, then
`TempAbove53` — exactly 3 applications and 4 render calls; and in general
a reading classified to the last applied range is suppressed: feeding the
same reading twice applies at most once (exactly once when the range
differs from the last applied one, never twice). -/
theorem continuous_scenario_and_idempotence :
    (runLoop true ⟨.TempAbove53, ⟨0⟩⟩ 0 injectedReads).2.2.1 =
      [.TempBelow40, .Temp40To45, .TempAbove53] ∧
    (runLoop true ⟨.TempAbove53, ⟨0⟩⟩ 0 injectedReads).2.2.2 = 4 ∧
    (∀ (avail : Bool) (mc : ℤ) (st : LoopState) (g : ℚ),
      (runLoop avail st g [some mc, some mc]).2.2.1 =
        if temperatureRange ((mc : ℚ) / 1000) = st.oldRange then []
        else [temperatureRange ((mc : ℚ) / 1000)]) := by
  refine ⟨?_, ?_, fun avail mc st g => ?_⟩
  · (norm_num [runLoop, runCycle, updateTemperature, temperatureRange,
      setTempControls, setRGB, wiringPiI2CSetup, MAX_LED, injectedReads]) <;>
      decide
  · (norm_num [runLoop, runCycle, updateTemperature, temperatureRange,
      setTempControls, setRGB, wiringPiI2CSetup, MAX_LED, injectedReads]) <;>
      decide
  · by_cases h : temperatureRange ((mc : ℚ) / 1000) = st.oldRange <;>
      simp [runLoop, runCycle, updateTemperature, h]

/-- C7: `sweepTempRanges` applies all seven ranges in strictly descending
order and then all seven in strictly ascending order, unconditionally on
every step — exactly 14 applications. -/
theorem sweepTempRanges_fourteen :
    sweepTempRangesApplications =
      [.TempAbove53, .Temp51To53, .Temp49To51, .Temp47To49, .Temp45To47,
       .Temp40To45, .TempBelow40,
       .TempBelow40, .Temp40To45, .Temp45To47, .Temp47To49, .Temp49To51,
       .Temp51To53, .TempAbove53] ∧
    sweepTempRangesApplications.length = 14 := by
  decide

/-- C8: `temperatureRange` is monotonic with respect to the enum order of
the ranges. -/
theorem temperatureRange_monotone (t1 t2 : ℚ) (h : t1 < t2) :
    rangeIndex (temperatureRange t1) ≤ rangeIndex (temperatureRange t2) := by
  unfold temperatureRange
  split_ifs <;> norm_num [rangeIndex] <;> linarith

/-- Witness for the monotonicity theorem at the concrete pair 30 < 50. -/
theorem temperatureRange_monotone_witness :
    rangeIndex (temperatureRange 30) ≤ rangeIndex (temperatureRange 50) :=
  temperatureRange_monotone 30 50 (by norm_num)

/-- C9: every call to `setTempControls` leaves `gFileI2C = 0`, its last
channel action is the `close`, and it opens the channel exactly when the
channel was not already open (`gFileI2C = 0` at entry). -/
theorem setTempControls_channel_lifecycle :
    ∀ (avail : Bool) (g : ℤ) (b : TempRange),
      (setTempControls avail ⟨g⟩ b).state.gFileI2C = 0 ∧
      (∃ fd, ((setTempControls avail ⟨g⟩ b).events).getLast? =
        some (.closeChan fd)) ∧
      ((∃ fd, HwEvent.openChan fd ∈ (setTempControls avail ⟨g⟩ b).events) ↔
        g = 0) := by
  intro avail g b
  by_cases hg : g = 0 <;> cases avail <;> cases b <;>
    simp [setTempControls, setRGB, wiringPiI2CSetup, MAX_LED, rgbOf, fanDuty,
      hg]

/-- C10: `updateTemperature` returns 0 on every call, whether or not the
read succeeded, so the `if (!returnValue)` guard of `runControlLoop`
never skips classification. -/
theorem updateTemperature_always_zero :
    (∀ (rb : Option ℤ) (g : ℚ), (updateTemperature rb g).1 = 0) ∧
    (∀ (avail : Bool) (rb : Option ℤ) (st : LoopState) (g : ℚ),
      (runCycle avail rb st g).skippedClassification = false) := by
  constructor
  · intro rb g
    cases rb <;> rfl
  · intro avail rb st g
    cases rb <;> simp only [runCycle, updateTemperature] <;> split_ifs <;>
      simp_all

end TempControl
